import Mathlib

/-!
Verification development for the LED color-mode state machine and transition
engine implemented in `src/src/main.cpp` (Sirius3_LED).

The embedding mirrors the source:
* the global variables of `main.cpp` become the fields of `DeviceState`;
* the BLE write callback `MyCallbacks::onWrite` becomes `parseCommand`
  (the pure decoding performed by the tag checks and `sscanf`) followed by
  `applyCommand` (the state mutation of each branch);
* one iteration of the color part of `loop()` becomes `tick`.

Machine integers are modelled as `Nat`/`Int` with explicit reductions:
`uint8_t` conversions are `% 256`, `unsigned long` (32-bit on the ESP32
target) conversions and subtractions are `% 2^32`.  The C branches for
`C:`/`H:`/`M:` read their `sscanf` output variables without checking the
return value, so a failed conversion leaves them holding indeterminate
values; those reads are made explicit by threading an `UninitInts` record
of arbitrary integers through `applyCommand`.

The float interpolation `start + (target - start) * progress` (with
`progress = elapsed / duration` and the result truncated to an integer
channel) is modelled in exact arithmetic: for `elapsed < duration` the
exact value of each channel is `(s*(d-e) + t*e) / d ≥ 0`, so truncation
toward zero coincides with `Nat` floor division.  IEEE float round-off is
below the tolerances any statement here depends on.
-/

namespace Sirius3

/-- RGB color with 8-bit channels, the `CRGB` triple of the source.
Channels are `Nat` values; every constructor used keeps them below 256. -/
structure RGB where
  r : Nat
  g : Nat
  b : Nat
deriving DecidableEq

/-- The `ColorMode` enumeration of `main.cpp` lines 37-41. -/
inductive ColorMode where
  | MODE_AUTO
  | MODE_FIXED
  | MODE_TRANSITION
deriving DecidableEq

/-- The global mutable variables of `main.cpp` lines 47-59 that the color
state machine reads and writes (`hueTickerPrev` is the internal timestamp
of the 20 ms `EVERY_N_MILLISECONDS` ticker used at line 225). -/
structure DeviceState where
  gHue : Nat
  autoHueChange : Bool
  currentColor : RGB
  colorMode : ColorMode
  isTransitioning : Bool
  startColor : RGB
  targetColor : RGB
  transitionStartTime : Nat
  transitionDuration : Nat
  hueTickerPrev : Nat
deriving DecidableEq

/-- C++ conversion of an `int` to `uint8_t`: reduction modulo 256. -/
def u8 (x : Int) : Nat := (x % 256).toNat

/-- C++ conversion of an `int` to the 32-bit `unsigned long` of the ESP32
target: reduction modulo 2^32. -/
def u32 (x : Int) : Nat := (x % (2 ^ 32 : Int)).toNat

/-- The `CRGB(r, g, b)` constructor: each `int` argument is converted to a
`uint8_t` channel. -/
def CRGBmk (r g b : Int) : RGB := ⟨u8 r, u8 g, u8 b⟩

/-- The whitespace class skipped by a `%d` conversion of `sscanf`. -/
def isScanSpace (c : Char) : Bool :=
  c = ' ' || c = '\t' || c = '\n' || c = Char.ofNat 11 || c = Char.ofNat 12 || c = '\r'

/-- Decimal value of a digit run (most significant first). -/
def digitsToNat (ds : List Char) : Nat :=
  ds.foldl (fun acc c => acc * 10 + (c.toNat - 48)) 0

/-- One `%d` conversion of `sscanf`: skip whitespace, read an optional
sign, then at least one decimal digit (greedily).  Returns the parsed
integer and the unconsumed input, or `none` on matching failure. -/
def scanInt (cs : List Char) : Option (Int × List Char) :=
  let cs1 := cs.dropWhile (fun c => isScanSpace c)
  let signed : Bool × List Char :=
    match cs1 with
    | '-' :: rest => (true, rest)
    | '+' :: rest => (false, rest)
    | _ => (false, cs1)
  let ds := signed.2.takeWhile (fun c => c.isDigit)
  let rest := signed.2.dropWhile (fun c => c.isDigit)
  if ds.isEmpty then none
  else some (if signed.1 then -(digitsToNat ds : Int) else (digitsToNat ds : Int), rest)

/-- The `"%d,%d,...,%d"` tail of the source's `sscanf` formats: up to `n`
integer conversions separated by literal commas.  Returns the list of
successfully assigned values; like `sscanf`, it stops at the first failed
conversion or missing comma, so the assigned values form a prefix. -/
def scanIntsSep : Nat → List Char → List Int
  | 0, _ => []
  | 1, cs =>
    match scanInt cs with
    | none => []
    | some (v, _) => [v]
  | n + 2, cs =>
    match scanInt cs with
    | none => []
    | some (v, rest) =>
      match rest with
      | ',' :: rest2 => v :: scanIntsSep (n + 1) rest2
      | _ => [v]

/-- The structured command decoded by `MyCallbacks::onWrite`
(`main.cpp` lines 79-146).  An `Option` field is `none` exactly when the
corresponding `sscanf` conversion did not assign the variable (the C
variable then keeps its previous, indeterminate content — except the `T:`
duration, whose variable is pre-initialised to 1000). -/
inductive Command where
  | setColor (r g b : Option Int)
  | setHue (h : Option Int)
  | setMode (m : Option Int)
  | transition (r g b t : Option Int)
  | invalid
deriving DecidableEq

/-- `value[i]` on the received `std::string`: the character at `i`, or the
null character when reading the terminator at position `size()` (the only
out-of-range index the code uses is `value[1]` on a length-1 string, which
C++ defines to return `'\0'`). -/
def charAt (s : String) (i : Nat) : Char := s.data.getD i (Char.ofNat 0)

/-- The pure decoding performed by `MyCallbacks::onWrite`: the
`value.length() > 0` guard, the two-character tag checks, and the `sscanf`
calls of each branch (`main.cpp` lines 82-120).  Total by construction. -/
def parseCommand (s : String) : Command :=
  if s.data.length = 0 then .invalid
  else
    let c0 := charAt s 0
    let c1 := charAt s 1
    let payload := s.data.drop 2
    if c0 = 'C' ∧ c1 = ':' then
      let vs := scanIntsSep 3 payload
      .setColor (vs.get? 0) (vs.get? 1) (vs.get? 2)
    else if c0 = 'H' ∧ c1 = ':' then
      .setHue ((scanIntsSep 1 payload).get? 0)
    else if c0 = 'M' ∧ c1 = ':' then
      .setMode ((scanIntsSep 1 payload).get? 0)
    else if c0 = 'T' ∧ c1 = ':' then
      let vs := scanIntsSep 4 payload
      .transition (vs.get? 0) (vs.get? 1) (vs.get? 2) (vs.get? 3)
    else .invalid

/-- The indeterminate contents of the stack variables `r`, `g`, `b` (of the
`C:` branch), `hue` (`H:`) and `mode` (`M:`) when `sscanf` fails to assign
them: the source reads them regardless (`main.cpp` lines 89-113), which in
C++ is a read of an uninitialised object.  Results proved for every
`UninitInts` hold whatever garbage those reads produce. -/
structure UninitInts where
  ur : Int
  ug : Int
  ub : Int
  uh : Int
  um : Int
deriving DecidableEq

/-- All-zero garbage values, for concrete evaluations whose commands parse
completely (the garbage is then never consulted). -/
def jZero : UninitInts := ⟨0, 0, 0, 0, 0⟩

/-- The state mutation of each `onWrite` branch (`main.cpp` lines 87-144),
given the decoded command, the `millis()` reading `now` taken at line 128,
and the garbage values `j` for unassigned `sscanf` outputs.
The `T:` branch mirrors the source exactly: it requires at least the three
RGB conversions (`parsed >= 3`), always records `startColor` from the live
`currentColor`, stores the duration through the `unsigned long` conversion
(default 1000 when the fourth field was not assigned), sets
`colorMode = MODE_TRANSITION`, and finally clears `isTransitioning` again
when start and target coincide (lines 133-136). -/
def applyCommand (j : UninitInts) (c : Command) (now : Nat) (st : DeviceState) :
    DeviceState :=
  match c with
  | .setColor r g b =>
    { st with
      currentColor := CRGBmk (r.getD j.ur) (g.getD j.ug) (b.getD j.ub)
      autoHueChange := false
      isTransitioning := false
      colorMode := .MODE_FIXED }
  | .setHue h =>
    { st with
      gHue := u8 (h.getD j.uh)
      autoHueChange := false
      isTransitioning := false
      colorMode := .MODE_FIXED }
  | .setMode m =>
    let mv := m.getD j.um
    { st with
      autoHueChange := decide (mv = 1)
      isTransitioning := false
      colorMode := if mv = 1 then .MODE_AUTO else .MODE_FIXED }
  | .transition r g b t =>
    match r, g, b with
    | some rv, some gv, some bv =>
      let sc := st.currentColor
      let tc := CRGBmk rv gv bv
      { st with
        startColor := sc
        targetColor := tc
        transitionDuration := match t with | some tv => u32 tv | none => 1000
        transitionStartTime := now % 2 ^ 32
        isTransitioning := if sc = tc then false else true
        autoHueChange := false
        colorMode := .MODE_TRANSITION }
    | _, _, _ => st
  | .invalid => st

/-- Receiving a raw command string: decode, then mutate. -/
def applyRaw (j : UninitInts) (s : String) (now : Nat) (st : DeviceState) :
    DeviceState :=
  applyCommand j (parseCommand s) now st

/-- The `unsigned long` subtraction `now - start` of `main.cpp` line 201
(32-bit wraparound): both operands reduced modulo 2^32, difference taken
modulo 2^32. -/
def elapsed32 (start now : Nat) : Nat :=
  (now % 2 ^ 32 + (2 ^ 32 - start % 2 ^ 32)) % 2 ^ 32

/-- One channel of the interpolation at `main.cpp` lines 214-216, in exact
arithmetic: `start + (target - start) * (elapsed / duration)` equals
`(s*(d-e) + t*e) / d`, whose numerator is nonnegative for `e ≤ d`, so the
C truncation toward zero is `Nat` floor division. -/
def lerpChan (s t e d : Nat) : Nat := (s * (d - e) + t * e) / d

/-- Channel-wise interpolated color of `main.cpp` lines 214-216. -/
def lerpRGB (s t : RGB) (e d : Nat) : RGB :=
  ⟨lerpChan s.r t.r e d, lerpChan s.g t.g e d, lerpChan s.b t.b e d⟩

/-- Modelled from the spec: the HSV→RGB conversion performed by the
external LED library when `loop()` fills with `CHSV(gHue, 255, 255)` at
line 226 (§4.4 of the spec: fill with `HSV(hue, saturation=255,
value=255)`).  The library itself is not part of this repository; this is
its rainbow hue mapping specialised to full saturation and value.  No
claim's verdict depends on the fine structure of this map, only on its
evident property that a fully saturated hue-0 color is pure red. -/
def hsvFull (h : Nat) : RGB :=
  let hue := h % 256
  let offset8 := hue % 32 * 8
  let third := offset8 * 86 / 256
  let twothirds := offset8 * 171 / 256
  let sec := hue / 32
  if sec = 0 then ⟨255 - third, third, 0⟩
  else if sec = 1 then ⟨171, 85 + third, 0⟩
  else if sec = 2 then ⟨171 - twothirds, 170 + third, 0⟩
  else if sec = 3 then ⟨0, 255 - third, third⟩
  else if sec = 4 then ⟨0, 171 - twothirds, 85 + twothirds⟩
  else if sec = 5 then ⟨third, 0, 255 - third⟩
  else if sec = 6 then ⟨85 + third, 0, 171 - third⟩
  else ⟨170 + third, 0, 85 - third⟩

/-- Modelled from the spec: the fixed-rate 20 ms sub-cadence ticker of
`main.cpp` line 225 (`EVERY_N_MILLISECONDS(20) { gHue++; }`, a macro of
the external LED library; §4.4 of the spec: advance `hue` by 1 every
20 ms of wall-clock time).  It keeps a last-trigger timestamp and fires
when at least 20 ms have elapsed, with 32-bit wraparound arithmetic. -/
def hueTick (now : Nat) (st : DeviceState) : DeviceState :=
  if 20 ≤ elapsed32 st.hueTickerPrev now then
    { st with gHue := (st.gHue + 1) % 256, hueTickerPrev := now % 2 ^ 32 }
  else st

/-- One iteration of the color part of `loop()` (`main.cpp` lines
198-232), given the `millis()` reading `now`: returns the new state and
the solid color handed to `fill_solid` for this frame.  The BLE
connection bookkeeping of lines 186-196 touches none of the color state
and is omitted. -/
def tick (now : Nat) (st : DeviceState) : DeviceState × RGB :=
  if st.isTransitioning then
    let e := elapsed32 st.transitionStartTime now
    if st.transitionDuration ≤ e then
      ({ st with currentColor := st.targetColor, isTransitioning := false },
        st.targetColor)
    else
      let c := lerpRGB st.startColor st.targetColor e st.transitionDuration
      ({ st with currentColor := c }, c)
  else if st.colorMode = .MODE_AUTO then
    let st2 := hueTick now st
    (st2, hsvFull st2.gHue)
  else
    (st, st.currentColor)

/-- The startup state of `main.cpp` lines 47-59: auto hue rotation, hue 0,
`currentColor = CRGB::White`, no transition in flight, default duration. -/
def initState : DeviceState :=
  { gHue := 0
    autoHueChange := true
    currentColor := ⟨255, 255, 255⟩
    colorMode := .MODE_AUTO
    isTransitioning := false
    startColor := ⟨0, 0, 0⟩
    targetColor := ⟨0, 0, 0⟩
    transitionStartTime := 0
    transitionDuration := 1000
    hueTickerPrev := 0 }

/-- States reachable from startup by any interleaving of received command
strings (with arbitrary garbage in unassigned `sscanf` outputs and
arbitrary `millis()` readings) and render-loop iterations. -/
inductive Reachable : DeviceState → Prop where
  | init : Reachable initState
  | cmd : ∀ (j : UninitInts) (s : String) (now : Nat) (st : DeviceState),
      Reachable st → Reachable (applyRaw j s now st)
  | tickStep : ∀ (now : Nat) (st : DeviceState),
      Reachable st → Reachable (tick now st).1

end Sirius3

namespace Sirius3

/-- Helper: applying the decoded `Invalid` command is the identity. -/
theorem applyCommand_invalid (j : UninitInts) (now : Nat) (st : DeviceState) :
    applyCommand j Command.invalid now st = st := rfl

/-- C1: the claim fails on the code.  A malformed command with a recognized
`C:` tag, such as `"C:x,y,z"`, is not treated as `Invalid`: the `C:` branch
of `onWrite` never checks the `sscanf` return value, so it still clears any
transition, forces `colorMode = MODE_FIXED` (here changing the mode away
from the startup `MODE_AUTO`), and stores the uninitialised `r`, `g`, `b`
stack values into `currentColor`.  The state change holds for every
possible content `j` of those uninitialised variables. -/
theorem c1_malformed_tagged_command_mutates_state :
    ∀ j : UninitInts,
      parseCommand "C:x,y,z" = Command.setColor none none none ∧
      (applyRaw j "C:x,y,z" 0 initState).colorMode = ColorMode.MODE_FIXED ∧
      (applyRaw j "C:x,y,z" 0 initState).isTransitioning = false ∧
      initState.colorMode = ColorMode.MODE_AUTO ∧
      applyRaw j "C:x,y,z" 0 initState ≠ initState := by
  intro j
  have hp : parseCommand "C:x,y,z" = Command.setColor none none none := by decide
  have hc : (applyRaw j "C:x,y,z" 0 initState).colorMode = ColorMode.MODE_FIXED := by
    unfold applyRaw
    rw [hp]
    rfl
  refine ⟨hp, hc, ?_, by decide, ?_⟩
  · unfold applyRaw
    rw [hp]
    rfl
  · intro h
    rw [h] at hc
    exact absurd hc (by decide)

/-- C2 counterexample: after `"H:0"` is received in the startup state, the
next render frame fills the strip with the old `currentColor` (white), not
with the HSV color of hue 0 (pure red): `MODE_FIXED` rendering at
`main.cpp` line 231 uses `currentColor`, which the `H:` branch never
updates.  A second run shows the fill instead tracks whatever
`currentColor` a previous `C:` command left behind. -/
theorem c2_counterexample :
    (tick 0 (applyRaw jZero "H:0" 0 initState)).2 = ⟨255, 255, 255⟩ ∧
    hsvFull 0 = ⟨255, 0, 0⟩ ∧
    (⟨255, 255, 255⟩ : RGB) ≠ ⟨255, 0, 0⟩ ∧
    (tick 0 (applyRaw jZero "H:0" 0 (applyRaw jZero "C:1,2,3" 0 initState))).2 =
      ⟨1, 2, 3⟩ := by decide

/-- C2 amended: `SetHue(h)` sets `hue := h` (mod 256), clears the
transition and sets `mode = Fixed`, but it leaves `currentColor`
unchanged, and every subsequent Fixed-mode render tick fills the strip
with that unchanged `currentColor` — not with an HSV-derived color of
`h`. -/
theorem c2_setHue_renders_stale_currentColor (j : UninitInts) (h : Int)
    (st : DeviceState) (now now2 : Nat) :
    (applyCommand j (Command.setHue (some h)) now st).gHue = u8 h ∧
    (applyCommand j (Command.setHue (some h)) now st).isTransitioning = false ∧
    (applyCommand j (Command.setHue (some h)) now st).colorMode = ColorMode.MODE_FIXED ∧
    (applyCommand j (Command.setHue (some h)) now st).currentColor = st.currentColor ∧
    (tick now2 (applyCommand j (Command.setHue (some h)) now st)).2 =
      st.currentColor := by
  refine ⟨rfl, rfl, rfl, rfl, ?_⟩
  simp [applyCommand, tick]

/-- C3 counterexample: `"T:10,20,30,-5"` has duration field `-5 ≤ 0`, but
it is not resolved to immediate completion: the `int` value `-5` is stored
into the `unsigned long transitionDuration` as `2^32 - 5 = 4294967291`,
so on the render tick 1000 ms later the transition is still in flight and
an intermediate interpolated frame `(254,254,254)` (one step from the
white start color) is produced instead of the target `(10,20,30)`. -/
theorem c3_counterexample :
    (applyRaw jZero "T:10,20,30,-5" 0 initState).isTransitioning = true ∧
    (applyRaw jZero "T:10,20,30,-5" 0 initState).transitionDuration = 4294967291 ∧
    (tick 1000 (applyRaw jZero "T:10,20,30,-5" 0 initState)).1.isTransitioning = true ∧
    (tick 1000 (applyRaw jZero "T:10,20,30,-5" 0 initState)).2 = ⟨254, 254, 254⟩ ∧
    (⟨254, 254, 254⟩ : RGB) ≠ ⟨10, 20, 30⟩ := by decide

/-- C3 amended: a `Transition` command whose duration field is exactly 0
resolves to immediate completion on the next render tick — `currentColor`
is snapped to the target, the transition flag is cleared, the rendered
frame is exactly the target (no interpolated frame), and no division is
ever reached; but a strictly negative duration field is instead converted
to `unsigned long` modulo 2^32, yielding the huge duration
`tv + 2^32`. -/
theorem c3_duration_zero_immediate (j : UninitInts) (r g b : Int)
    (st : DeviceState) (now now2 : Nat) :
    (applyCommand j (Command.transition (some r) (some g) (some b) (some 0)) now
        st).transitionDuration = 0 ∧
    (tick now2 (applyCommand j (Command.transition (some r) (some g) (some b) (some 0))
        now st)).1.currentColor = CRGBmk r g b ∧
    (tick now2 (applyCommand j (Command.transition (some r) (some g) (some b) (some 0))
        now st)).1.isTransitioning = false ∧
    (tick now2 (applyCommand j (Command.transition (some r) (some g) (some b) (some 0))
        now st)).2 = CRGBmk r g b ∧
    (∀ tv : Int, tv < 0 → -(2 ^ 32) < tv →
      (applyCommand j (Command.transition (some r) (some g) (some b) (some tv)) now
          st).transitionDuration = (tv + 2 ^ 32).toNat) := by
  have hd : (applyCommand j (Command.transition (some r) (some g) (some b) (some 0))
      now st).transitionDuration = 0 := rfl
  refine ⟨hd, ?_, ?_, ?_, ?_⟩
  · by_cases hc : st.currentColor = CRGBmk r g b
    · simp [applyCommand, tick, hc]
    · simp [applyCommand, tick, hc, show u32 0 = 0 from rfl]
  · by_cases hc : st.currentColor = CRGBmk r g b
    · simp [applyCommand, tick, hc]
    · simp [applyCommand, tick, hc, show u32 0 = 0 from rfl]
  · by_cases hc : st.currentColor = CRGBmk r g b
    · simp [applyCommand, tick, hc]
    · simp [applyCommand, tick, hc, show u32 0 = 0 from rfl]
  · intro tv h1 h2
    have hu : (applyCommand j (Command.transition (some r) (some g) (some b) (some tv))
        now st).transitionDuration = u32 tv := rfl
    rw [hu]
    unfold u32
    omega

/-- C3 witness: the amended statement evaluated at `"T:10,20,30,0"`-shaped
arguments from the startup state, with the negative-duration clause at
`tv = -5`. -/
theorem c3_witness :
    (applyCommand jZero (Command.transition (some 10) (some 20) (some 30) (some 0)) 5
        initState).transitionDuration = 0 ∧
    (tick 7 (applyCommand jZero (Command.transition (some 10) (some 20) (some 30)
        (some 0)) 5 initState)).2 = CRGBmk 10 20 30 ∧
    (applyCommand jZero (Command.transition (some 10) (some 20) (some 30) (some (-5))) 5
        initState).transitionDuration = ((-5 : Int) + 2 ^ 32).toNat := by
  have h := c3_duration_zero_immediate jZero 10 20 30 initState 5 7
  exact ⟨h.1, h.2.2.2.1, h.2.2.2.2 (-5) (by decide) (by decide)⟩

/-- C4: parser totality.  `parseCommand` is a total Lean function, so every
input string yields exactly one `Command`.  Any string shorter than two
characters parses to `Invalid` (the only index read beyond a short input is
`value[1]` at position `size()`, which C++ defines to return the null
terminator — modelled by `charAt`'s null default), any string whose first
two characters are not a recognized `<TAG>:` pair parses to `Invalid`, and
an `Invalid` command leaves the state untouched. -/
theorem c4_parser_totality :
    ∀ (s : String) (j : UninitInts) (now : Nat) (st : DeviceState),
      (s.data.length < 2 → parseCommand s = Command.invalid) ∧
      ((charAt s 0 ≠ 'C' ∧ charAt s 0 ≠ 'H' ∧ charAt s 0 ≠ 'M' ∧ charAt s 0 ≠ 'T') →
        parseCommand s = Command.invalid) ∧
      (charAt s 1 ≠ ':' → parseCommand s = Command.invalid) ∧
      (parseCommand s = Command.invalid → applyRaw j s now st = st) := by
  intro s j now st
  refine ⟨?_, ?_, ?_, ?_⟩
  · intro hlen
    by_cases h0 : s.data.length = 0
    · simp [parseCommand, h0]
    · have h1 : s.data.length ≤ 1 := by omega
      have hc1 : charAt s 1 = Char.ofNat 0 := by
        unfold charAt
        exact List.getD_eq_default _ _ h1
      have hne : charAt s 1 ≠ ':' := by
        rw [hc1]
        decide
      simp [parseCommand, h0, hne]
  · intro hc0
    by_cases h0 : s.data.length = 0
    · simp [parseCommand, h0]
    · simp [parseCommand, h0, hc0.1, hc0.2.1, hc0.2.2.1, hc0.2.2.2]
  · intro hc1
    by_cases h0 : s.data.length = 0
    · simp [parseCommand, h0]
    · simp [parseCommand, h0, hc1]
  · intro hp
    unfold applyRaw
    rw [hp]
    rfl

/-- C4 witness: the totality statement evaluated at the length-1 input
`"C"`, which parses to `Invalid` and leaves the startup state unchanged. -/
theorem c4_witness :
    parseCommand "C" = Command.invalid ∧
    applyRaw jZero "C" 0 initState = initState := by
  have h := c4_parser_totality "C" jZero 0 initState
  have hp : parseCommand "C" = Command.invalid := h.1 (by decide)
  exact ⟨hp, h.2.2.2 hp⟩

/-- C7: degenerate skip.  A `Transition` command whose target equals the
live `currentColor` completes instantly: `currentColor` equals the target,
the transition flag is cleared (lines 133-135), `colorMode` is still set
to `MODE_TRANSITION`, and every subsequent render tick is a fixed fill of
the target with no state change — no interpolated frame ever occurs. -/
theorem c7_degenerate_skip (j : UninitInts) (r g b : Int) (t : Option Int)
    (st : DeviceState) (now now2 : Nat)
    (heq : CRGBmk r g b = st.currentColor) :
    (applyCommand j (Command.transition (some r) (some g) (some b) t) now
        st).currentColor = CRGBmk r g b ∧
    (applyCommand j (Command.transition (some r) (some g) (some b) t) now
        st).isTransitioning = false ∧
    (applyCommand j (Command.transition (some r) (some g) (some b) t) now
        st).colorMode = ColorMode.MODE_TRANSITION ∧
    (tick now2 (applyCommand j (Command.transition (some r) (some g) (some b) t) now
        st)).1 =
      applyCommand j (Command.transition (some r) (some g) (some b) t) now st ∧
    (tick now2 (applyCommand j (Command.transition (some r) (some g) (some b) t) now
        st)).2 = CRGBmk r g b := by
  have hc : st.currentColor = CRGBmk r g b := heq.symm
  refine ⟨?_, ?_, rfl, ?_, ?_⟩
  · simp [applyCommand, hc]
  · simp [applyCommand, hc]
  · simp [applyCommand, tick, hc]
  · simp [applyCommand, tick, hc]

/-- C7 witness: the spec scenario: `T:50,60,70,1000` received while
`currentColor` is already `(50,60,70)` (left there by `C:50,60,70`)
completes instantly, in `MODE_TRANSITION`, and the next frame is a fixed
fill of the target with no state change. -/
theorem c7_witness :
    (applyCommand jZero (Command.transition (some 50) (some 60) (some 70) (some 1000)) 5
        (applyRaw jZero "C:50,60,70" 0 initState)).isTransitioning = false ∧
    (applyCommand jZero (Command.transition (some 50) (some 60) (some 70) (some 1000)) 5
        (applyRaw jZero "C:50,60,70" 0 initState)).colorMode =
      ColorMode.MODE_TRANSITION ∧
    (tick 9 (applyCommand jZero (Command.transition (some 50) (some 60) (some 70)
        (some 1000)) 5 (applyRaw jZero "C:50,60,70" 0 initState))).2 = CRGBmk 50 60 70 := by
  have h := c7_degenerate_skip jZero 50 60 70 (some 1000)
    (applyRaw jZero "C:50,60,70" 0 initState) 5 9 (by decide)
  exact ⟨h.2.1, h.2.2.1, h.2.2.2.2⟩

/-- C5: start-color continuity.  A `Transition` command received while a
transition is in flight records its start color from the live
`currentColor` (`main.cpp` line 125); in particular, applied right after a
mid-flight render tick, the recorded start color is exactly the
interpolated color that tick just rendered. -/
theorem c5_transition_starts_from_live_color (j : UninitInts) (r g b : Int)
    (t : Option Int) (st : DeviceState) (now : Nat)
    (hin : st.isTransitioning = true) :
    (applyCommand j (Command.transition (some r) (some g) (some b) t) now st).startColor =
      st.currentColor ∧
    (∀ now0 : Nat, elapsed32 st.transitionStartTime now0 < st.transitionDuration →
      (applyCommand j (Command.transition (some r) (some g) (some b) t) now
          (tick now0 st).1).startColor = (tick now0 st).2) := by
  refine ⟨rfl, ?_⟩
  intro now0 hlt
  have hnc : ¬ (st.transitionDuration ≤ elapsed32 st.transitionStartTime now0) := by omega
  simp [tick, hin, hnc, applyCommand]

/-- C5 witness: the spec scenario `T:100,0,0,1000`, then a render tick
300 ms later, then `T:0,0,100,500`: the second transition starts from the
interpolated `(208,178,178)` live at 300 ms, not from `(100,0,0)` nor from
the original white. -/
theorem c5_witness :
    (tick 300 (applyRaw jZero "T:100,0,0,1000" 0 initState)).1.isTransitioning = true ∧
    (applyCommand jZero (Command.transition (some 0) (some 0) (some 100) (some 500)) 300
        (tick 300 (applyRaw jZero "T:100,0,0,1000" 0 initState)).1).startColor =
      (tick 300 (applyRaw jZero "T:100,0,0,1000" 0 initState)).1.currentColor ∧
    (tick 300 (applyRaw jZero "T:100,0,0,1000" 0 initState)).1.currentColor =
      ⟨208, 178, 178⟩ ∧
    (⟨208, 178, 178⟩ : RGB) ≠ ⟨100, 0, 0⟩ ∧
    (⟨208, 178, 178⟩ : RGB) ≠ ⟨255, 255, 255⟩ :=
  ⟨by decide,
   (c5_transition_starts_from_live_color jZero 0 0 100 (some 500)
      (tick 300 (applyRaw jZero "T:100,0,0,1000" 0 initState)).1 300 (by decide)).1,
   by decide, by decide, by decide⟩

/-- C9: the hue ticker.  A render tick never changes `gHue` when the mode
is `MODE_FIXED` or `MODE_TRANSITION`, nor while a transition is in flight;
`gHue` is incremented (mod 256) exactly when no transition is in flight,
the mode is `MODE_AUTO`, and at least 20 ms have elapsed on the
`EVERY_N_MILLISECONDS(20)` sub-cadence ticker. -/
theorem c9_hue_frozen_outside_auto (st : DeviceState) (now : Nat) :
    (st.colorMode = ColorMode.MODE_FIXED ∨ st.colorMode = ColorMode.MODE_TRANSITION →
      (tick now st).1.gHue = st.gHue) ∧
    (st.isTransitioning = true → (tick now st).1.gHue = st.gHue) ∧
    (st.isTransitioning = false → st.colorMode = ColorMode.MODE_AUTO →
      20 ≤ elapsed32 st.hueTickerPrev now →
      (tick now st).1.gHue = (st.gHue + 1) % 256) ∧
    (st.isTransitioning = false → st.colorMode = ColorMode.MODE_AUTO →
      elapsed32 st.hueTickerPrev now < 20 →
      (tick now st).1.gHue = st.gHue) := by
  refine ⟨?_, ?_, ?_, ?_⟩
  · intro hmode
    cases htr : st.isTransitioning
    · have hne : ¬ st.colorMode = ColorMode.MODE_AUTO := by
        rcases hmode with h | h <;> simp [h]
      simp [tick, htr, hne]
    · simp only [tick, htr, if_true]
      split <;> rfl
  · intro htr
    simp only [tick, htr, if_true]
    split <;> rfl
  · intro htr hmode h20
    simp [tick, htr, hmode, hueTick, h20]
  · intro htr hmode h20
    have hn : ¬ (20 ≤ elapsed32 st.hueTickerPrev now) := by omega
    simp [tick, htr, hmode, hueTick, hn]

/-- C9 witness: concrete runs of each clause: a Fixed-mode tick and a
mid-transition tick leave `gHue` at 0; from startup (Auto mode), the tick
at 20 ms increments `gHue` to 1 while the tick at 19 ms leaves it at 0. -/
theorem c9_witness :
    (tick 100 (applyRaw jZero "C:1,2,3" 0 initState)).1.gHue =
      (applyRaw jZero "C:1,2,3" 0 initState).gHue ∧
    (tick 5 (applyRaw jZero "T:100,0,0,1000" 7 initState)).1.gHue =
      (applyRaw jZero "T:100,0,0,1000" 7 initState).gHue ∧
    (tick 20 initState).1.gHue = (initState.gHue + 1) % 256 ∧
    (tick 19 initState).1.gHue = initState.gHue :=
  ⟨(c9_hue_frozen_outside_auto (applyRaw jZero "C:1,2,3" 0 initState) 100).1
      (Or.inl (by decide)),
   (c9_hue_frozen_outside_auto (applyRaw jZero "T:100,0,0,1000" 7 initState) 5).2.1
      (by decide),
   (c9_hue_frozen_outside_auto initState 20).2.2.1 (by decide) (by decide) (by decide),
   (c9_hue_frozen_outside_auto initState 19).2.2.2 (by decide) (by decide) (by decide)⟩

/-- C10: wraparound-correct elapsed time.  The render loop computes the
elapsed time of an in-flight transition by 32-bit unsigned subtraction
(`main.cpp` line 201, modelled by `elapsed32`), so as long as the true
elapsed time is below 2^32 ms the computed value equals the true elapsed
time even when the millisecond counter wraps between the transition start
and the tick, and the tick renders and completes exactly as an unwrapped
run with the same true elapsed time would. -/
theorem c10_elapsed_wraparound (trueStart trueNow : Nat) (st : DeviceState)
    (hle : trueStart ≤ trueNow) (hspan : trueNow - trueStart < 2 ^ 32)
    (hst : st.transitionStartTime = trueStart % 2 ^ 32)
    (htr : st.isTransitioning = true) :
    elapsed32 st.transitionStartTime (trueNow % 2 ^ 32) = trueNow - trueStart ∧
    (tick (trueNow % 2 ^ 32) st).2 =
      (tick (trueNow - trueStart) { st with transitionStartTime := 0 }).2 ∧
    (tick (trueNow % 2 ^ 32) st).1.currentColor =
      (tick (trueNow - trueStart) { st with transitionStartTime := 0 }).1.currentColor ∧
    (tick (trueNow % 2 ^ 32) st).1.isTransitioning =
      (tick (trueNow - trueStart) { st with transitionStartTime := 0 }).1.isTransitioning := by
  have hE : elapsed32 st.transitionStartTime (trueNow % 2 ^ 32) = trueNow - trueStart := by
    rw [hst]
    unfold elapsed32
    omega
  have hE2 : elapsed32 (0 : Nat) (trueNow - trueStart) = trueNow - trueStart := by
    unfold elapsed32
    omega
  have hE2' : elapsed32 ({ st with transitionStartTime := 0 }).transitionStartTime
      (trueNow - trueStart) = trueNow - trueStart := hE2
  refine ⟨hE, ?_, ?_, ?_⟩ <;>
    simp only [tick, htr, if_true, hE, hE2'] <;>
    split <;> rfl

/-- C10 witness: a transition started 100 ms before the 32-bit counter
wraps, sampled 400 ms after the wrap: the computed elapsed time is the
true 500 ms. -/
theorem c10_witness :
    elapsed32
      (applyCommand jZero (Command.transition (some 255) (some 255) (some 255) (some 1000))
        (2 ^ 32 - 100) (applyRaw jZero "C:0,0,0" 0 initState)).transitionStartTime
      ((2 ^ 32 + 400) % 2 ^ 32) = (2 ^ 32 + 400) - (2 ^ 32 - 100) :=
  (c10_elapsed_wraparound (2 ^ 32 - 100) (2 ^ 32 + 400)
    (applyCommand jZero (Command.transition (some 255) (some 255) (some 255) (some 1000))
      (2 ^ 32 - 100) (applyRaw jZero "C:0,0,0" 0 initState))
    (by decide) (by decide) (by decide) (by decide)).1

/-- The black-to-white transition state of the spec's monotonicity
property: fields in declaration order (`gHue`, `autoHueChange`,
`currentColor`, `colorMode`, `isTransitioning`, `startColor`,
`targetColor`, `transitionStartTime`, `transitionDuration`,
`hueTickerPrev`).  It is produced by the program itself: see
`st6_from_program`. -/
def st6 : DeviceState :=
  ⟨0, false, ⟨0, 0, 0⟩, .MODE_TRANSITION, true, ⟨0, 0, 0⟩, ⟨255, 255, 255⟩, 0, 1000, 0⟩

/-- `st6` is the state after receiving `C:0,0,0` and then
`T:255,255,255,1000` at time 0 from startup. -/
theorem st6_from_program :
    st6 = applyRaw jZero "T:255,255,255,1000" 0 (applyRaw jZero "C:0,0,0" 0 initState) := by
  decide

/-- Rendered channel value of the `st6` transition at elapsed time `e`. -/
def sampleAt (e : Nat) : Nat := if 1000 ≤ e then 255 else 255 * e / 1000

/-- Helper: a render tick of any state carrying the `st6` transition
record interpolates (or snaps) each channel to `sampleAt` of the elapsed
time, and leaves the transition record itself unchanged until
completion. -/
theorem tick_blackwhite (st : DeviceState) (e : Nat) (he : e < 2 ^ 32)
    (h1 : st.isTransitioning = true) (h2 : st.startColor = ⟨0, 0, 0⟩)
    (h3 : st.targetColor = ⟨255, 255, 255⟩) (h4 : st.transitionStartTime = 0)
    (h5 : st.transitionDuration = 1000) :
    (tick e st).2 = ⟨sampleAt e, sampleAt e, sampleAt e⟩ ∧
    (tick e st).1 = { st with
      currentColor := ⟨sampleAt e, sampleAt e, sampleAt e⟩
      isTransitioning := if 1000 ≤ e then false else true } := by
  have hE : elapsed32 st.transitionStartTime e = e := by
    rw [h4]
    unfold elapsed32
    omega
  by_cases hc : 1000 ≤ e
  · constructor <;> simp [tick, h1, hE, h5, h3, hc, sampleAt]
  · constructor <;>
      simp [tick, h1, h2, h3, hE, h5, hc, sampleAt, lerpRGB, lerpChan]

/-- Helper: a tick of a settled transition state (flag cleared, mode still
`MODE_TRANSITION`) is a fixed fill of `currentColor` with no state
change. -/
theorem tick_settled (st : DeviceState) (e : Nat)
    (h1 : st.isTransitioning = false) (h2 : st.colorMode = ColorMode.MODE_TRANSITION) :
    tick e st = (st, st.currentColor) := by
  simp [tick, h1, h2]

/-- Helper: the interpolated channel never exceeds the target 255. -/
theorem sampleAt_le_255 (e : Nat) : sampleAt e ≤ 255 := by
  unfold sampleAt
  split
  · exact le_refl 255
  · have hx : 255 * e ≤ 255 * 1000 := by omega
    calc 255 * e / 1000 ≤ 255 * 1000 / 1000 := Nat.div_le_div_right hx
      _ = 255 := by norm_num

/-- Helper: the interpolated channel is monotone in elapsed time. -/
theorem sampleAt_mono {e e' : Nat} (h : e ≤ e') : sampleAt e ≤ sampleAt e' := by
  unfold sampleAt
  by_cases h1 : 1000 ≤ e
  · rw [if_pos h1, if_pos (le_trans h1 h)]
  · by_cases h2 : 1000 ≤ e'
    · rw [if_neg h1, if_pos h2]
      have hx : 255 * e ≤ 255 * 1000 := by omega
      calc 255 * e / 1000 ≤ 255 * 1000 / 1000 := Nat.div_le_div_right hx
        _ = 255 := by norm_num
    · rw [if_neg h1, if_neg h2]
      exact Nat.div_le_div_right (by omega)

/-- C6: transition monotonicity for the black-to-white transition over
1000 ms (`st6`): the frame at elapsed 0 is `(0,0,0)`, at elapsed 500 it is
exactly `(127,127,127)` (within the claimed ±1), from 1000 on it is
exactly `(255,255,255)`, and along any pair of successive samples each
channel is non-decreasing and never exceeds the target. -/
theorem c6_transition_monotonicity :
    (tick 0 st6).2 = ⟨0, 0, 0⟩ ∧
    (tick 500 st6).2 = ⟨127, 127, 127⟩ ∧
    (∀ e : Nat, 1000 ≤ e → e < 2 ^ 32 → (tick e st6).2 = ⟨255, 255, 255⟩) ∧
    (∀ e e' : Nat, e ≤ e' → e' < 2 ^ 32 →
      (tick e st6).2.r ≤ (tick e' (tick e st6).1).2.r ∧
      (tick e st6).2.g ≤ (tick e' (tick e st6).1).2.g ∧
      (tick e st6).2.b ≤ (tick e' (tick e st6).1).2.b ∧
      (tick e' (tick e st6).1).2.r ≤ 255 ∧
      (tick e' (tick e st6).1).2.g ≤ 255 ∧
      (tick e' (tick e st6).1).2.b ≤ 255) := by
  refine ⟨by decide, by decide, ?_, ?_⟩
  · intro e h1000 hlt
    rw [(tick_blackwhite st6 e hlt rfl rfl rfl rfl rfl).1]
    rw [show sampleAt e = 255 from by simp [sampleAt, h1000]]
  · intro e e' hee hlt
    have he0 : e < 2 ^ 32 := lt_of_le_of_lt hee hlt
    obtain ⟨hf, hs⟩ := tick_blackwhite st6 e he0 rfl rfl rfl rfl rfl
    rw [hf, hs]
    by_cases hc : 1000 ≤ e
    · rw [if_pos hc]
      rw [tick_settled _ e' rfl rfl]
      exact ⟨le_refl _, le_refl _, le_refl _,
        sampleAt_le_255 e, sampleAt_le_255 e, sampleAt_le_255 e⟩
    · rw [if_neg hc]
      obtain ⟨hf2, _⟩ := tick_blackwhite
        { st6 with
          currentColor := ⟨sampleAt e, sampleAt e, sampleAt e⟩
          isTransitioning := true }
        e' hlt rfl rfl rfl rfl rfl
      rw [hf2]
      exact ⟨sampleAt_mono hee, sampleAt_mono hee, sampleAt_mono hee,
        sampleAt_le_255 e', sampleAt_le_255 e', sampleAt_le_255 e'⟩

/-- C6 witness: the snap clause evaluated at elapsed 1000 and a concrete
monotone pair of successive samples at 500 and 600 ms. -/
theorem c6_witness :
    (tick 1000 st6).2 = ⟨255, 255, 255⟩ ∧
    (tick 500 st6).2.r ≤ (tick 600 (tick 500 st6).1).2.r :=
  ⟨c6_transition_monotonicity.2.2.1 1000 (by decide) (by decide),
   (c6_transition_monotonicity.2.2.2 500 600 (by decide) (by decide)).1⟩

/-- Helper: one command application preserves the invariant that the
transition flag implies `MODE_TRANSITION`. -/
theorem applyCommand_flag_mode (j : UninitInts) (c : Command) (now : Nat)
    (st : DeviceState)
    (ih : st.isTransitioning = true → st.colorMode = ColorMode.MODE_TRANSITION) :
    (applyCommand j c now st).isTransitioning = true →
      (applyCommand j c now st).colorMode = ColorMode.MODE_TRANSITION := by
  cases c with
  | setColor r g b =>
    intro h
    simp [applyCommand] at h
  | setHue h =>
    intro hh
    simp [applyCommand] at hh
  | setMode m =>
    intro h
    simp [applyCommand] at h
  | transition r g b t =>
    cases r with
    | none => cases g <;> cases b <;> exact ih
    | some rv =>
      cases g with
      | none => cases b <;> exact ih
      | some gv =>
        cases b with
        | none => exact ih
        | some bv =>
          intro _
          rfl
  | invalid => exact ih

/-- Helper: one render tick preserves the invariant that the transition
flag implies `MODE_TRANSITION`. -/
theorem tick_flag_mode (now : Nat) (st : DeviceState)
    (ih : st.isTransitioning = true → st.colorMode = ColorMode.MODE_TRANSITION) :
    (tick now st).1.isTransitioning = true →
      (tick now st).1.colorMode = ColorMode.MODE_TRANSITION := by
  intro h
  by_cases htr : st.isTransitioning = true
  · have hmode := ih htr
    by_cases hdone : st.transitionDuration ≤ elapsed32 st.transitionStartTime now
    · simp [tick, htr, hdone] at h
    · simp [tick, htr, hdone, hmode]
  · have htr' : st.isTransitioning = false := by
      cases hb : st.isTransitioning
      · rfl
      · exact absurd hb htr
    by_cases hmode : st.colorMode = ColorMode.MODE_AUTO
    · have h1 : (tick now st).1 = hueTick now st := by simp [tick, htr', hmode]
      rw [h1] at h
      unfold hueTick at h
      split at h <;> simp [htr'] at h
    · have h1 : (tick now st).1 = st := by simp [tick, htr', hmode]
      rw [h1] at h
      exact absurd h htr

/-- Helper: the flag-mode implication holds in every reachable state. -/
theorem reachable_flag_mode {st : DeviceState} (hr : Reachable st) :
    st.isTransitioning = true → st.colorMode = ColorMode.MODE_TRANSITION := by
  induction hr with
  | init =>
    intro h
    simp [initState] at h
  | cmd j s now st2 hst ih => exact applyCommand_flag_mode j (parseCommand s) now st2 ih
  | tickStep now st2 hst ih => exact tick_flag_mode now st2 ih

/-- C8: in every state reachable from startup by commands and render
ticks, the transition flag is set only while `colorMode =
MODE_TRANSITION`; and when a tick completes an in-flight transition it
clears the flag while the mode remains `MODE_TRANSITION`.  Consequently
no reachable state has mode `MODE_AUTO` or `MODE_FIXED` together with an
in-flight transition. -/
theorem c8_transition_flag_only_in_transition_mode (st : DeviceState)
    (hr : Reachable st) :
    (st.isTransitioning = true → st.colorMode = ColorMode.MODE_TRANSITION) ∧
    (∀ now : Nat, st.isTransitioning = true →
      st.transitionDuration ≤ elapsed32 st.transitionStartTime now →
      (tick now st).1.isTransitioning = false ∧
      (tick now st).1.colorMode = ColorMode.MODE_TRANSITION) := by
  refine ⟨reachable_flag_mode hr, ?_⟩
  intro now htr hdone
  constructor
  · simp [tick, htr, hdone]
  · have hmode := reachable_flag_mode hr htr
    simp [tick, htr, hdone, hmode]

/-- C8 witness: `T:1,2,3,10` from startup is reachable, in flight, and in
`MODE_TRANSITION`; the tick at elapsed 10 completes it, clearing the flag
while the mode remains `MODE_TRANSITION`. -/
theorem c8_witness :
    (applyRaw jZero "T:1,2,3,10" 0 initState).isTransitioning = true ∧
    (applyRaw jZero "T:1,2,3,10" 0 initState).colorMode = ColorMode.MODE_TRANSITION ∧
    (tick 10 (applyRaw jZero "T:1,2,3,10" 0 initState)).1.isTransitioning = false ∧
    (tick 10 (applyRaw jZero "T:1,2,3,10" 0 initState)).1.colorMode =
      ColorMode.MODE_TRANSITION := by
  have hr : Reachable (applyRaw jZero "T:1,2,3,10" 0 initState) :=
    Reachable.cmd jZero "T:1,2,3,10" 0 initState Reachable.init
  have h := c8_transition_flag_only_in_transition_mode _ hr
  refine ⟨by decide, h.1 (by decide), ?_, ?_⟩
  · exact (h.2 10 (by decide) (by decide)).1
  · exact (h.2 10 (by decide) (by decide)).2

end Sirius3
